import Mathlib

/-!
Shallow embedding of `riskscore-360/compute_score.py` (the Scoring Engine of
azure-secureops-studio) together with proofs about the claims of its
specification.  Python machine integers are modelled as `ℤ`, Python floats as
`ℝ`, Python's `int()` conversion as truncation toward zero, and the input JSON
document as a typed structure whose optional sections are `Option` values.
-/

open scoped Classical

set_option maxHeartbeats 1000000

/-- Severity bands shared by every component calculator (the Python code uses
the strings "none"/"low"/"medium"/"high"/"critical"). -/
inductive Severity where
  | none
  | low
  | medium
  | high
  | critical
  deriving DecidableEq, Repr

/-- The `{score, severity, details}` triple every calculator returns. -/
structure ComponentResult where
  score : ℤ
  severity : Severity
  details : String
  deriving DecidableEq, Repr

/-- Python's `int()` applied to a float: truncation toward zero. -/
noncomputable def pyInt (x : ℝ) : ℤ := if 0 ≤ x then ⌊x⌋ else ⌈x⌉

/-- One entry of `policy.top_noncompliant_policies`. -/
structure PolicyEntry where
  policyDefinitionId : String
  policyName : String
  noncompliant_records : ℤ
  deriving DecidableEq, Repr

/-- The frequency-multiplier block of `compute_policy_risk` (lines 24-33): the
multiplier starts at 1.0 and becomes 1.2 only when the list is non-empty, the
total record count is positive and the top-3 concentration exceeds 0.6. -/
noncomputable def frequency_multiplier (top_policies : List PolicyEntry) : ℝ :=
  if top_policies = [] then 1.0
  else
    let top_3_records := ((top_policies.take 3).map PolicyEntry.noncompliant_records).sum
    let total_records := (top_policies.map PolicyEntry.noncompliant_records).sum
    if 0 < total_records then
      if 0.6 < (top_3_records : ℝ) / (total_records : ℝ) then 1.2 else 1.0
    else 1.0

/-- The saturating base curve `40 * (1 - e^(-n/10))` of `compute_policy_risk`. -/
noncomputable def policy_base_score (n : ℤ) : ℝ := 40 * (1 - Real.exp (-(n : ℝ) / 10))

/-- `compute_policy_risk` from `compute_score.py` lines 7-48. -/
noncomputable def compute_policy_risk (unique_noncompliant_policies : ℤ)
    (top_policies : List PolicyEntry) : ComponentResult :=
  let n := max 0 unique_noncompliant_policies
  if n = 0 then
    { score := 0, severity := Severity.none, details := "No policy violations" }
  else
    let base_score := policy_base_score n
    let fm := frequency_multiplier top_policies
    let final_score := min 40 (base_score * fm)
    let severity := if final_score ≤ 10 then Severity.low
      else if final_score ≤ 25 then Severity.medium
      else Severity.high
    { score := pyInt final_score, severity := severity,
      details := toString n ++ " unique violations, concentration factor: " ++
        (if fm = 1.2 then "1.20" else "1.00") }

/-- The `iam_counts` mapping (`owners`/`contributors`/`readers`; the unused
`custom_roles` key is never read by the calculator). -/
structure IamCounts where
  owners : ℤ
  contributors : ℤ
  readers : ℤ
  deriving DecidableEq, Repr

/-- `compute_iam_risk` from `compute_score.py` lines 51-107.  The normalized
`drift_level` argument is never used by the body. -/
noncomputable def compute_iam_risk (drift_level : String) (iam_counts : IamCounts) :
    ComponentResult :=
  let owners := max 0 iam_counts.owners
  let contributors := max 0 iam_counts.contributors
  let readers := max 0 iam_counts.readers
  let owner_score : ℤ :=
    if 0 < owners then
      if owners = 1 then 5
      else if owners ≤ 3 then 15
      else if owners ≤ 5 then 25
      else 35
    else 0
  let severity_after_owners : Severity :=
    if 0 < owners then
      if 5 < owners then Severity.critical
      else if 3 < owners then Severity.high
      else Severity.medium
    else Severity.none
  let contrib_score : ℝ :=
    if 0 < contributors then min 15 (15 * (1 - Real.exp (-(contributors : ℝ) / 20))) else 0
  let severity : Severity :=
    if 0 < contributors ∧ severity_after_owners = Severity.none then
      if 30 < contributors then Severity.high
      else if 15 < contributors then Severity.medium
      else Severity.low
    else severity_after_owners
  let total_privileged := owners + contributors
  let ratio_penalty : ℝ :=
    if 0 < total_privileged ∧ 0 < readers ∧
        (0.5 : ℝ) < (total_privileged : ℝ) / ((total_privileged : ℝ) + (readers : ℝ)) then 5
    else 0
  let base_score : ℝ := (owner_score : ℝ) + contrib_score + ratio_penalty
  let final_score : ℤ := min 35 (pyInt base_score)
  { score := final_score, severity := severity,
    details := "Owners: " ++ toString owners ++ ", Contributors: " ++ toString contributors ++
      ", Readers: " ++ toString readers ++
      (if 5 < owners then " [CRITICAL: Excessive Owner accounts]" else "") }

/-- `compute_defender_risk` from `compute_score.py` lines 110-157. -/
noncomputable def compute_defender_risk (high medium low : ℤ) : ComponentResult :=
  let h := max 0 high
  let m := max 0 medium
  let l := max 0 low
  if h = 0 ∧ m = 0 ∧ l = 0 then
    { score := 0, severity := Severity.none, details := "No Defender alerts" }
  else
    let high_score : ℝ := if h ≤ 5 then (h : ℝ) * 20 else 100 + 20 * Real.log ((h : ℝ) - 4)
    let medium_score : ℝ := if m ≤ 10 then (m : ℝ) * 8 else 80 + 8 * Real.log ((m : ℝ) - 9)
    let low_score : ℝ := min 10 ((l : ℝ) * 2)
    let total_score := high_score + medium_score + low_score
    let final_score := min 35 (pyInt total_score)
    let severity := if 5 ≤ h then Severity.critical
      else if 2 ≤ h ∨ 15 ≤ m then Severity.high
      else if 1 ≤ h ∨ 5 ≤ m then Severity.medium
      else Severity.low
    { score := final_score, severity := severity,
      details := "High: " ++ toString h ++ ", Medium: " ++ toString m ++ ", Low: " ++ toString l }

/-- The `network` section of the raw signal document. -/
structure NetworkData where
  open_high_risk_ports : ℤ
  public_ip_count : ℤ
  missing_nsg_count : ℤ
  total_nsgs : ℤ
  total_nics : ℤ
  deriving DecidableEq, Repr

/-- The zero record substituted for an absent `network` section. -/
def zeroNetwork : NetworkData := ⟨0, 0, 0, 0, 0⟩

/-- `compute_network_risk` from `compute_score.py` lines 160-200 (the Python
function receives the whole document and reads only its `network` key, which
is the `Option NetworkData` passed here). -/
def compute_network_risk (network : Option NetworkData) : ComponentResult :=
  let nw := network.getD zeroNetwork
  let open_ports := nw.open_high_risk_ports
  let public_ips := nw.public_ip_count
  let missing_nsgs := nw.missing_nsg_count
  let score := (if 0 < open_ports then min 10 (open_ports * 3) else 0) +
    (if 5 < public_ips then 3 else if 2 < public_ips then 2 else 0) +
    (if 0 < missing_nsgs then min 5 (missing_nsgs * 2) else 0)
  let final_score := min 15 score
  if score = 0 then
    { score := 0, severity := Severity.none, details := "No network issues detected" }
  else
    { score := final_score,
      severity := if 10 ≤ final_score then Severity.high
        else if 5 ≤ final_score then Severity.medium
        else Severity.low,
      details := "Open risk ports: " ++ toString open_ports ++ ", Public IPs: " ++
        toString public_ips ++ ", Missing NSGs: " ++ toString missing_nsgs }

/-- The `encryption` section of the raw signal document. -/
structure EncryptionData where
  unencrypted_storage_accounts : ℤ
  weak_tls_configs : ℤ
  no_customer_managed_keys : ℤ
  https_only_violations : ℤ
  total_storage_accounts : ℤ
  deriving DecidableEq, Repr

/-- The zero record substituted for an absent `encryption` section. -/
def zeroEncryption : EncryptionData := ⟨0, 0, 0, 0, 0⟩

/-- `compute_encryption_risk` from `compute_score.py` lines 203-238. -/
def compute_encryption_risk (encryption : Option EncryptionData) : ComponentResult :=
  let enc := encryption.getD zeroEncryption
  let unencrypted_storage := enc.unencrypted_storage_accounts
  let weak_tls := enc.weak_tls_configs
  let no_cmk := enc.no_customer_managed_keys
  let score := (if 0 < unencrypted_storage then 5 else 0) +
    (if 0 < weak_tls then 3 else 0) +
    (if 3 < no_cmk then 2 else 0)
  let final_score := min 10 score
  if score = 0 then
    { score := 0, severity := Severity.none, details := "Encryption controls adequate" }
  else
    { score := final_score,
      severity := if 7 ≤ final_score then Severity.high
        else if 4 ≤ final_score then Severity.medium
        else Severity.low,
      details := "Unencrypted storage: " ++ toString unencrypted_storage ++ ", Weak TLS: " ++
        toString weak_tls }

/-- `compute_composite_risk_level` from `compute_score.py` lines 241-262. -/
def compute_composite_risk_level (score : ℤ) (component_severities : List Severity) : String :=
  let critical_count := component_severities.count Severity.critical
  if 0 < critical_count ∧ 50 ≤ score then "Critical"
  else if 75 ≤ score then "Critical"
  else if 60 ≤ score then "High"
  else if 40 ≤ score then "Medium-High"
  else if 25 ≤ score then "Medium"
  else if 10 ≤ score then "Low-Medium"
  else "Low"

/-- The five named component results, in the insertion order of the
`components` dict literal of `main`. -/
structure Components where
  policy : ComponentResult
  iam : ComponentResult
  defender : ComponentResult
  network : ComponentResult
  encryption : ComponentResult
  deriving DecidableEq, Repr

/-- `components.items()` in the canonical insertion order
policy, iam, defender, network, encryption. -/
def Components.toList (c : Components) : List (String × ComponentResult) :=
  [("policy", c.policy), ("iam", c.iam), ("defender", c.defender),
   ("network", c.network), ("encryption", c.encryption)]

/-- One insertion step of the stable descending insertion sort modelling
Python's stable `sorted(..., key=score, reverse=True)`: the new element goes in
front of the first already-placed element whose score is not larger. -/
def insertDesc (x : String × ComponentResult) :
    List (String × ComponentResult) → List (String × ComponentResult)
  | [] => [x]
  | y :: ys => if y.2.score ≤ x.2.score then x :: y :: ys else y :: insertDesc x ys

/-- Stable sort by score, descending (Python `sorted(items, key=score,
reverse=True)`): equal-score elements keep their original relative order. -/
def sortByScoreDesc : List (String × ComponentResult) → List (String × ComponentResult)
  | [] => []
  | x :: xs => insertDesc x (sortByScoreDesc xs)

/-- One entry of `top_risk_drivers`. -/
structure Driver where
  component : String
  score : ℤ
  severity : Severity
  deriving DecidableEq, Repr

/-- The `top_drivers` comprehension of `generate_risk_trends` (lines 281-295):
slice the sorted list to 3 entries, keep the strictly positive scores, render
each as a `{component, score, severity}` triple. -/
def top_risk_drivers (components : Components) : List Driver :=
  (((sortByScoreDesc components.toList).take 3).filter (fun p => 0 < p.2.score)).map
    (fun p => { component := p.1, score := p.2.score, severity := p.2.severity })

/-- Python's `round` on a real value: round half to even (banker's rounding). -/
noncomputable def round_half_even (x : ℝ) : ℤ :=
  if x - ⌊x⌋ = 0.5 then (if 2 ∣ ⌊x⌋ then ⌊x⌋ else ⌊x⌋ + 1) else round x

/-- Python's `round(x, 1)`. -/
noncomputable def pyRound1 (x : ℝ) : ℝ := (round_half_even (10 * x) : ℝ) / 10

/-- One entry of the `distribution` mapping of `generate_risk_trends`. -/
structure DistEntry where
  score : ℤ
  percentage : ℝ
  severity : Severity

/-- The record returned by `generate_risk_trends`. -/
structure Trends where
  distribution : List (String × DistEntry)
  top_risk_drivers : List Driver

/-- `generate_risk_trends` from `compute_score.py` lines 265-300 (its `score`
argument is never read). -/
noncomputable def generate_risk_trends (score : ℤ) (components : Components) : Trends :=
  let total := (components.toList.map (fun p => p.2.score)).sum
  let distribution :=
    if 0 < total then
      components.toList.map (fun p =>
        (p.1, { score := p.2.score,
                percentage := pyRound1 ((p.2.score : ℝ) / (total : ℝ) * 100),
                severity := p.2.severity : DistEntry }))
    else []
  { distribution := distribution, top_risk_drivers := top_risk_drivers components }

/-- The `policy` section of the raw signal document. -/
structure PolicySection where
  unique_noncompliant_policies : ℤ
  top_noncompliant_policies : List PolicyEntry
  deriving DecidableEq, Repr

/-- The `defender` section of the raw signal document. -/
structure DefenderSection where
  high : ℤ
  medium : ℤ
  low : ℤ
  deriving DecidableEq, Repr

/-- The Raw Signal Document: every section that `main` reads with
`data.get(..., default)` is an `Option` here, absence standing for a missing
JSON key. -/
structure RawDoc where
  subscription_id : Option String
  resource_group : Option String
  policy : Option PolicySection
  iam_drift : Option String
  iam_counts : Option IamCounts
  owner_principals_sample : List String
  contributor_principals_sample : List String
  defender : Option DefenderSection
  network : Option NetworkData
  encryption : Option EncryptionData

/-- The `component_scores` block of the report. -/
structure ComponentScores where
  policy_risk : ℤ
  iam_risk : ℤ
  defender_risk : ℤ
  network_risk : ℤ
  encryption_risk : ℤ

/-- The `risk_analysis` block of the report. -/
structure RiskAnalysis where
  total_raw_score : ℤ
  max_possible_score : ℤ
  normalized_score : ℤ
  risk_distribution : List (String × DistEntry)
  top_risk_drivers : List Driver

/-- The `raw_inputs` echo block of the report. -/
structure RawInputsEcho where
  policy_unique_noncompliant_policies : ℤ
  policy_top_noncompliant_policies : List PolicyEntry
  iam_drift : String
  iam_counts : IamCounts
  owner_principals_sample : List String
  contributor_principals_sample : List String
  defender_high : ℤ
  defender_medium : ℤ
  defender_low : ℤ
  network : Option NetworkData
  encryption : Option EncryptionData

/-- The Composite Risk Report printed by `main`. -/
structure Report where
  subscription_id : String
  resource_group : String
  risk_score : ℤ
  risk_level : String
  component_scores : ComponentScores
  component_details : Components
  risk_analysis : RiskAnalysis
  raw_inputs : RawInputsEcho

/-- The pure scoring pipeline of `main` (`compute_score.py` lines 333-431),
from the loaded document to the printed report. -/
noncomputable def score_doc (data : RawDoc) : Report :=
  let subscription_id := data.subscription_id.getD "unknown"
  let rg := data.resource_group.getD "unknown"
  let policy := data.policy.getD ⟨0, []⟩
  let unique_nc := policy.unique_noncompliant_policies
  let top_policies := policy.top_noncompliant_policies
  let iam_drift := data.iam_drift.getD "none"
  let iam_counts := data.iam_counts.getD ⟨0, 0, 0⟩
  let defender := data.defender.getD ⟨0, 0, 0⟩
  let policy_result := compute_policy_risk unique_nc top_policies
  let iam_result := compute_iam_risk iam_drift iam_counts
  let defender_result := compute_defender_risk defender.high defender.medium defender.low
  let network_result := compute_network_risk data.network
  let encryption_result := compute_encryption_risk data.encryption
  let components : Components :=
    ⟨policy_result, iam_result, defender_result, network_result, encryption_result⟩
  let total_raw := policy_result.score + iam_result.score + defender_result.score +
    network_result.score + encryption_result.score
  let max_possible : ℤ := 40 + 35 + 35 + 15 + 10
  let score := min 100 (pyInt ((total_raw : ℝ) / (max_possible : ℝ) * 100))
  let severities := [policy_result.severity, iam_result.severity, defender_result.severity,
    network_result.severity, encryption_result.severity]
  let risk_lvl := compute_composite_risk_level score severities
  let trends := generate_risk_trends score components
  { subscription_id := subscription_id
    resource_group := rg
    risk_score := score
    risk_level := risk_lvl
    component_scores := ⟨policy_result.score, iam_result.score, defender_result.score,
      network_result.score, encryption_result.score⟩
    component_details := components
    risk_analysis := ⟨total_raw, max_possible, score, (trends).distribution,
      (trends).top_risk_drivers⟩
    raw_inputs := ⟨unique_nc, top_policies, iam_drift, iam_counts,
      data.owner_principals_sample, data.contributor_principals_sample,
      defender.high, defender.medium, defender.low, data.network, data.encryption⟩ }

/-- Untyped JSON values, the shape `json.load` returns.  The signal counts
are integers, so JSON numbers are modelled as integers. -/
inductive Json where
  | null
  | bool (b : Bool)
  | int (n : ℤ)
  | str (s : String)
  | arr (elems : List Json)
  | obj (fields : List (String × Json))

/-- Python truthiness: `None`, `False`, `0`, `""`, `[]` and `{}` are falsy. -/
def Json.truthy : Json → Bool
  | Json.null => false
  | Json.bool b => b
  | Json.int n => n != 0
  | Json.str s => s != ""
  | Json.arr elems => !elems.isEmpty
  | Json.obj fields => !fields.isEmpty

/-- Python's `a or b`: `a` when truthy, else `b`. -/
def pyOr (a b : Json) : Json := if a.truthy then a else b

/-- The exception classes the program can raise: `FileNotFoundError` (the
spec's `MissingInputError`) and `UnicodeDecodeError` raised by
`load_real_inputs` (lines 311 and 324), `json.JSONDecodeError` propagating
uncaught from `json.load` (line 320), and `AttributeError` / `ValueError` /
`TypeError` from wrong-typed section values reaching the calculators. -/
inductive PyError where
  | fileNotFound
  | unicodeDecodeError
  | jsonDecodeError
  | attributeError
  | valueError
  | typeError
  deriving DecidableEq, Repr

/-- First binding for a key in a JSON object. -/
def jsonLookup (key : String) : List (String × Json) → Option Json
  | [] => Option.none
  | (k, v) :: rest => if k = key then Option.some v else jsonLookup key rest

/-- Python's `x.get(key, default)`: only dicts have `.get`; on any other
value the attribute access raises `AttributeError`. -/
def pyGet (j : Json) (key : String) (default : Json) : Except PyError Json :=
  match j with
  | Json.obj fields => Except.ok ((jsonLookup key fields).getD default)
  | _ => Except.error PyError.attributeError

/-- Signed decimal digits, the strings Python's `int(str)` accepts (its
surrounding-whitespace and underscore tolerance are abstracted away). -/
def decDigits? (ds : List Char) : Option ℤ :=
  if ds = [] then Option.none
  else if ds.all Char.isDigit then
    Option.some (ds.foldl (fun acc d => 10 * acc + ((d.toNat : ℤ) - 48)) 0)
  else Option.none

/-- Parse a string the way Python's `int(str)` does: an optional sign
followed by decimal digits, anything else a `ValueError`. -/
def parseDecInt? (s : String) : Option ℤ :=
  match s.data with
  | '-' :: rest => (decDigits? rest).map Int.neg
  | '+' :: rest => decDigits? rest
  | chars => decDigits? chars

/-- Python's `int(x)` as the calculators apply it to section values: integers
pass through, booleans coerce to 0/1, signed decimal strings parse and any
other string raises `ValueError`; `None`, lists and dicts raise
`TypeError`. -/
def pyToInt (j : Json) : Except PyError ℤ :=
  match j with
  | Json.int n => Except.ok n
  | Json.bool b => Except.ok (if b then 1 else 0)
  | Json.str s =>
    match parseDecInt? s with
    | Option.some n => Except.ok n
    | Option.none => Except.error PyError.valueError
  | _ => Except.error PyError.typeError

/-- Python's `x.strip().lower()`: defined on strings only; any other (truthy)
value raises `AttributeError` at the `.strip` attribute access. -/
def py_strip_lower (j : Json) : Except PyError String :=
  match j with
  | Json.str s => Except.ok (s.trim.toLower)
  | _ => Except.error PyError.attributeError

/-- Outcome of reading `real_inputs.json`, with the byte-level content
abstracted to whether some attempted encoding decodes it and whether
`json.load` then parses it. -/
inductive FileRead where
  | undecodable
  | unparsable
  | parsed (doc : Json)

/-- `load_real_inputs` (lines 303-330): an absent file raises
`FileNotFoundError` (line 311); a file no attempted encoding decodes raises
the `UnicodeDecodeError` built at line 324; a decodable file with malformed
JSON lets `json.JSONDecodeError` propagate uncaught out of `json.load`
(line 320); otherwise the parsed document is returned. -/
def load_real_inputs (file : Option FileRead) : Except PyError Json :=
  match file with
  | Option.none => Except.error PyError.fileNotFound
  | Option.some FileRead.undecodable => Except.error PyError.unicodeDecodeError
  | Option.some FileRead.unparsable => Except.error PyError.jsonDecodeError
  | Option.some (FileRead.parsed doc) => Except.ok doc

/-- `main`'s section resolution, e.g. line 346:
`iam_counts = data.get("iam_counts", {}) or {}`.  A missing key and a falsy
value both become `{}`, but a truthy wrong-typed value passes through raw. -/
def resolve_section (data : Json) (key : String) : Except PyError Json := do
  let raw ← pyGet data key (Json.obj [])
  Except.ok (pyOr raw (Json.obj []))

/-- The dynamically-typed prologue of `compute_iam_risk` (lines 51-61) over
the raw JSON values the Python function actually receives: line 58 normalizes
`drift_level` (fatal on a truthy non-string), lines 59-61 read and `int()`
the three counts (fatal on a non-dict `iam_counts` or non-numeric values);
once those conversions succeed the typed body of lines 62-107 takes over. -/
noncomputable def compute_iam_risk_json (drift_level iam_counts : Json) :
    Except PyError ComponentResult := do
  let drift ← py_strip_lower (pyOr drift_level (Json.str ""))
  let owners ← pyToInt (← pyGet iam_counts "owners" (Json.int 0))
  let contributors ← pyToInt (← pyGet iam_counts "contributors" (Json.int 0))
  let readers ← pyToInt (← pyGet iam_counts "readers" (Json.int 0))
  Except.ok (compute_iam_risk drift ⟨owners, contributors, readers⟩)

/-!  Definitions written from the specification's words, used to state the
refinement claims and to exhibit counterexamples. -/

/-- Claim C2's severity rule read on the already-floored integer score:
`low` if `score ≤ 10`, `medium` if `score ≤ 25`, `high` otherwise. -/
def severity_from_floored_score (score : ℤ) : Severity :=
  if score ≤ 10 then Severity.low
  else if score ≤ 25 then Severity.medium
  else Severity.high

/-- The concentration quotient of §4.1: records of the first 3 supplied
entries over records of all supplied entries. -/
noncomputable def concentration_spec (top_policies : List PolicyEntry) : ℝ :=
  (((top_policies.take 3).map PolicyEntry.noncompliant_records).sum : ℝ) /
    ((top_policies.map PolicyEntry.noncompliant_records).sum : ℝ)

/-- The multiplier rule of claim C2: 1.2 when the concentration exceeds 0.6,
else 1.0. -/
noncomputable def multiplier_spec (top_policies : List PolicyEntry) : ℝ :=
  if 0.6 < concentration_spec top_policies then 1.2 else 1.0

/-- The owner step function of claim C3 on the clamped owner count:
`1→5, 2-3→15, 4-5→25, >5→35`, and 0 when `owners = 0`. -/
def owner_term_spec (owners : ℤ) : ℤ :=
  if owners = 0 then 0
  else if owners = 1 then 5
  else if owners ≤ 3 then 15
  else if owners ≤ 5 then 25
  else 35

/-- The contributor term of claim C3: `min(15, 15·(1 − e^(−c/20)))` when
`c > 0`, else 0. -/
noncomputable def contributor_term_spec (contributors : ℤ) : ℝ :=
  if 0 < contributors then min 15 (15 * (1 - Real.exp (-(contributors : ℝ) / 20))) else 0

/-- The privilege-ratio penalty of claim C3: exactly 5 when
`owners+contributors > 0`, `readers > 0` and the privileged ratio
exceeds one half, else 0. -/
noncomputable def ratio_penalty_spec (owners contributors readers : ℤ) : ℝ :=
  if 0 < owners + contributors ∧ 0 < readers ∧
      (0.5 : ℝ) < ((owners : ℝ) + (contributors : ℝ)) /
        ((owners : ℝ) + (contributors : ℝ) + (readers : ℝ)) then 5
  else 0

/-- The severity rule of claim C3: owner bands when `owners > 0`, otherwise
contributor bands when `contributors > 0`, otherwise `none`. -/
def iam_severity_spec (owners contributors : ℤ) : Severity :=
  if 0 < owners then
    if 5 < owners then Severity.critical
    else if 3 < owners then Severity.high
    else Severity.medium
  else if 0 < contributors then
    if 30 < contributors then Severity.high
    else if 15 < contributors then Severity.medium
    else Severity.low
  else Severity.none

/-- The risk-level classifier as worded in claim C4: the critical override is
phrased with membership (`some component severity equals critical`). -/
def risk_level_spec (score : ℤ) (component_severities : List Severity) : String :=
  if Severity.critical ∈ component_severities ∧ 50 ≤ score then "Critical"
  else if 75 ≤ score then "Critical"
  else if 60 ≤ score then "High"
  else if 40 ≤ score then "Medium-High"
  else if 25 ≤ score then "Medium"
  else if 10 ≤ score then "Low-Medium"
  else "Low"

/-- The canonical component order of §4.7. -/
def canonical_order : List String := ["policy", "iam", "defender", "network", "encryption"]

/-- Position of a component name in the canonical order. -/
def canon_idx (name : String) : ℕ := canonical_order.indexOf name

/-!  Basic facts about `pyInt`. -/

theorem pyInt_of_nonneg {x : ℝ} (hx : 0 ≤ x) : pyInt x = ⌊x⌋ := by
  simp [pyInt, hx]

theorem pyInt_intCast (n : ℤ) : pyInt (n : ℝ) = n := by
  rcases le_or_lt 0 (n : ℝ) with h | h
  · simp [pyInt, h]
  · simp [pyInt, not_le.mpr h, Int.ceil_intCast]

theorem pyInt_mono {x y : ℝ} (h : x ≤ y) : pyInt x ≤ pyInt y := by
  unfold pyInt
  rcases le_or_lt 0 x with hx | hx
  · rcases le_or_lt 0 y with hy | hy
    · simp only [if_pos hx, if_pos hy]
      exact Int.floor_mono h
    · exact absurd (hx.trans h) (not_le.mpr hy)
  · rcases le_or_lt 0 y with hy | hy
    · simp only [if_neg (not_le.mpr hx), if_pos hy]
      exact le_trans (Int.ceil_le.mpr (by exact_mod_cast hx.le)) (Int.floor_nonneg.mpr hy)
    · simp only [if_neg (not_le.mpr hx), if_neg (not_le.mpr hy)]
      exact Int.ceil_mono h

theorem pyInt_nonneg {x : ℝ} (hx : 0 ≤ x) : 0 ≤ pyInt x := by
  rw [pyInt_of_nonneg hx]
  exact Int.floor_nonneg.mpr hx

theorem pyInt_le_of_le {x : ℝ} {n : ℤ} (h : x ≤ n) : pyInt x ≤ n := by
  unfold pyInt
  split
  · exact (Int.floor_mono h).trans_eq (Int.floor_intCast n)
  · exact Int.ceil_le.mpr h

/-!  Bounds of the five calculators. -/

theorem score_clip_bounds (c : ℤ) (hc : 0 ≤ c) {x : ℝ} (hx : 0 ≤ x) :
    0 ≤ min c (pyInt x) ∧ min c (pyInt x) ≤ c :=
  ⟨le_min hc (pyInt_nonneg hx), min_le_left _ _⟩

theorem one_le_frequency_multiplier (tps : List PolicyEntry) : 1 ≤ frequency_multiplier tps := by
  unfold frequency_multiplier
  dsimp only
  split_ifs <;> norm_num

theorem frequency_multiplier_nonneg (tps : List PolicyEntry) : 0 ≤ frequency_multiplier tps :=
  le_trans (by norm_num) (one_le_frequency_multiplier tps)

theorem policy_base_score_nonneg {n : ℤ} (hn : 0 ≤ n) : 0 ≤ policy_base_score n := by
  unfold policy_base_score
  have hn' : (0 : ℝ) ≤ (n : ℝ) := by exact_mod_cast hn
  have hexp : Real.exp (-(n : ℝ) / 10) ≤ 1 := Real.exp_le_one_iff.mpr (by linarith)
  nlinarith

theorem policy_base_score_lt_40 (n : ℤ) : policy_base_score n < 40 := by
  unfold policy_base_score
  nlinarith [Real.exp_pos (-(n : ℝ) / 10)]

theorem policy_score_bounds (u : ℤ) (tps : List PolicyEntry) :
    0 ≤ (compute_policy_risk u tps).score ∧ (compute_policy_risk u tps).score ≤ 40 := by
  unfold compute_policy_risk
  dsimp only
  split
  · simp
  · have hbase : 0 ≤ policy_base_score (max 0 u) := policy_base_score_nonneg (le_max_left 0 u)
    have hfm : 0 ≤ frequency_multiplier tps := frequency_multiplier_nonneg tps
    have hmin : 0 ≤ min 40 (policy_base_score (max 0 u) * frequency_multiplier tps) :=
      le_min (by norm_num) (mul_nonneg hbase hfm)
    refine ⟨pyInt_nonneg hmin, pyInt_le_of_le ?_⟩
    calc min 40 (policy_base_score (max 0 u) * frequency_multiplier tps) ≤ 40 := min_le_left _ _
      _ = ((40 : ℤ) : ℝ) := by norm_num

theorem iam_score_bounds (d : String) (c : IamCounts) :
    0 ≤ (compute_iam_risk d c).score ∧ (compute_iam_risk d c).score ≤ 35 := by
  unfold compute_iam_risk
  dsimp only
  refine score_clip_bounds 35 (by norm_num) ?_
  refine add_nonneg (add_nonneg ?_ ?_) ?_
  · split_ifs <;> norm_num
  · split_ifs with hc
    · refine le_min (by norm_num) ?_
      have h0 : (0 : ℝ) ≤ (max 0 c.contributors : ℤ) := by exact_mod_cast le_max_left 0 _
      have hexp : Real.exp (-((max 0 c.contributors : ℤ) : ℝ) / 20) ≤ 1 :=
        Real.exp_le_one_iff.mpr (by linarith)
      nlinarith
    · exact le_refl 0
  · split_ifs <;> norm_num

theorem defender_score_bounds (hi me lo : ℤ) :
    0 ≤ (compute_defender_risk hi me lo).score ∧ (compute_defender_risk hi me lo).score ≤ 35 := by
  unfold compute_defender_risk
  dsimp only
  split
  · simp
  · refine score_clip_bounds 35 (by norm_num) ?_
    refine add_nonneg (add_nonneg ?_ ?_) ?_
    · split_ifs with hh
      · have : (0 : ℝ) ≤ (max 0 hi : ℤ) := by exact_mod_cast le_max_left 0 hi
        nlinarith
      · have h6 : (6 : ℤ) ≤ max 0 hi := by omega
        have h6' : (6 : ℝ) ≤ ((max 0 hi : ℤ) : ℝ) := by exact_mod_cast h6
        have hlog : 0 ≤ Real.log (((max 0 hi : ℤ) : ℝ) - 4) := Real.log_nonneg (by linarith)
        linarith
    · split_ifs with hm
      · have : (0 : ℝ) ≤ (max 0 me : ℤ) := by exact_mod_cast le_max_left 0 me
        nlinarith
      · have h11 : (11 : ℤ) ≤ max 0 me := by omega
        have h11' : (11 : ℝ) ≤ ((max 0 me : ℤ) : ℝ) := by exact_mod_cast h11
        have hlog : 0 ≤ Real.log (((max 0 me : ℤ) : ℝ) - 9) := Real.log_nonneg (by linarith)
        linarith
    · have : (0 : ℝ) ≤ (max 0 lo : ℤ) := by exact_mod_cast le_max_left 0 lo
      refine le_min (by norm_num) (by nlinarith)

theorem network_score_bounds (nw : Option NetworkData) :
    0 ≤ (compute_network_risk nw).score ∧ (compute_network_risk nw).score ≤ 15 := by
  unfold compute_network_risk
  dsimp only
  split_ifs <;> dsimp only <;> omega

theorem encryption_score_bounds (enc : Option EncryptionData) :
    0 ≤ (compute_encryption_risk enc).score ∧ (compute_encryption_risk enc).score ≤ 10 := by
  unfold compute_encryption_risk
  dsimp only
  split_ifs <;> dsimp only <;> omega

theorem normalized_score_props {t : ℤ} (ht : 0 ≤ t) :
    min 100 (pyInt ((t : ℝ) / ((40 + 35 + 35 + 15 + 10 : ℤ) : ℝ) * 100)) =
      max 0 (min 100 ⌊(t : ℝ) / 135 * 100⌋) ∧
    0 ≤ min 100 (pyInt ((t : ℝ) / ((40 + 35 + 35 + 15 + 10 : ℤ) : ℝ) * 100)) ∧
    min 100 (pyInt ((t : ℝ) / ((40 + 35 + 35 + 15 + 10 : ℤ) : ℝ) * 100)) ≤ 100 := by
  have h135 : ((40 + 35 + 35 + 15 + 10 : ℤ) : ℝ) = 135 := by norm_num
  rw [h135]
  have ht' : (0 : ℝ) ≤ (t : ℝ) := by exact_mod_cast ht
  have hx : (0 : ℝ) ≤ (t : ℝ) / 135 * 100 := by
    apply mul_nonneg (div_nonneg ht' (by norm_num)) (by norm_num)
  rw [pyInt_of_nonneg hx]
  have h0 : 0 ≤ ⌊(t : ℝ) / 135 * 100⌋ := Int.floor_nonneg.mpr hx
  exact ⟨(max_eq_right (le_min (by norm_num) h0)).symm, le_min (by norm_num) h0, min_le_left _ _⟩

/-- Claim C1: for every raw signal document, each component score lies in
[0, its cap] (policy 40, iam 35, defender 35, network 15, encryption 10),
`total_raw_score` equals the sum of the five component scores and is at most
135, and `risk_score = clamp(⌊total_raw_score/135·100⌋, 0, 100)` computed by
truncation, so `risk_score` always lies in [0, 100]. -/
theorem raw_report_invariants (data : RawDoc) :
    (0 ≤ (score_doc data).component_details.policy.score ∧
      (score_doc data).component_details.policy.score ≤ 40) ∧
    (0 ≤ (score_doc data).component_details.iam.score ∧
      (score_doc data).component_details.iam.score ≤ 35) ∧
    (0 ≤ (score_doc data).component_details.defender.score ∧
      (score_doc data).component_details.defender.score ≤ 35) ∧
    (0 ≤ (score_doc data).component_details.network.score ∧
      (score_doc data).component_details.network.score ≤ 15) ∧
    (0 ≤ (score_doc data).component_details.encryption.score ∧
      (score_doc data).component_details.encryption.score ≤ 10) ∧
    (score_doc data).risk_analysis.total_raw_score =
      (score_doc data).component_details.policy.score +
      (score_doc data).component_details.iam.score +
      (score_doc data).component_details.defender.score +
      (score_doc data).component_details.network.score +
      (score_doc data).component_details.encryption.score ∧
    (score_doc data).risk_analysis.total_raw_score ≤ 135 ∧
    (score_doc data).risk_score =
      max 0 (min 100 ⌊((score_doc data).risk_analysis.total_raw_score : ℝ) / 135 * 100⌋) ∧
    0 ≤ (score_doc data).risk_score ∧ (score_doc data).risk_score ≤ 100 := by
  obtain ⟨hp0, hp1⟩ := policy_score_bounds
    (data.policy.getD ⟨0, []⟩).unique_noncompliant_policies
    (data.policy.getD ⟨0, []⟩).top_noncompliant_policies
  obtain ⟨hi0, hi1⟩ := iam_score_bounds (data.iam_drift.getD "none") (data.iam_counts.getD ⟨0, 0, 0⟩)
  obtain ⟨hd0, hd1⟩ := defender_score_bounds (data.defender.getD ⟨0, 0, 0⟩).high
    (data.defender.getD ⟨0, 0, 0⟩).medium (data.defender.getD ⟨0, 0, 0⟩).low
  obtain ⟨hn0, hn1⟩ := network_score_bounds data.network
  obtain ⟨he0, he1⟩ := encryption_score_bounds data.encryption
  have ht : 0 ≤ (compute_policy_risk (data.policy.getD ⟨0, []⟩).unique_noncompliant_policies
        (data.policy.getD ⟨0, []⟩).top_noncompliant_policies).score +
      (compute_iam_risk (data.iam_drift.getD "none") (data.iam_counts.getD ⟨0, 0, 0⟩)).score +
      (compute_defender_risk (data.defender.getD ⟨0, 0, 0⟩).high
        (data.defender.getD ⟨0, 0, 0⟩).medium (data.defender.getD ⟨0, 0, 0⟩).low).score +
      (compute_network_risk data.network).score +
      (compute_encryption_risk data.encryption).score := by linarith
  obtain ⟨heq, hlo, hhi⟩ := normalized_score_props ht
  simp only [score_doc]
  refine ⟨⟨hp0, hp1⟩, ⟨hi0, hi1⟩, ⟨hd0, hd1⟩, ⟨hn0, hn1⟩, ⟨he0, he1⟩, ?_,
    by linarith, heq, hlo, hhi⟩
  trivial

/-- Claim C4: the risk-level classifier returns Critical when some component
severity equals critical and the score is at least 50; otherwise it classifies
by score alone (`≥75→Critical, ≥60→High, ≥40→Medium-High, ≥25→Medium,
≥10→Low-Medium, else Low`), with the critical-override check first. -/
theorem composite_risk_level_correct (score : ℤ) (component_severities : List Severity) :
    compute_composite_risk_level score component_severities =
      risk_level_spec score component_severities := by
  simp only [compute_composite_risk_level, risk_level_spec, List.count_pos_iff]

/-- Claim C9: with a positive clamped policy count and an empty or all-zero
`top_policies` list, the multiplier is 1.0 and the policy score is
`⌊min(40, base)⌋`; the concentration quotient is guarded by a positive total,
so the calculator is total. -/
theorem policy_no_division_guard (u : ℤ) (tps : List PolicyEntry)
    (hn : 0 < max 0 u)
    (h : tps = [] ∨ (tps.map PolicyEntry.noncompliant_records).sum = 0) :
    frequency_multiplier tps = 1 ∧
    (compute_policy_risk u tps).score = ⌊min 40 (policy_base_score (max 0 u))⌋ := by
  have hfm : frequency_multiplier tps = 1 := by
    unfold frequency_multiplier
    rcases h with h | h
    · rw [if_pos h]; norm_num
    · rcases eq_or_ne tps [] with he | he
      · rw [if_pos he]; norm_num
      · rw [if_neg he]
        dsimp only
        rw [h]
        norm_num
  refine ⟨hfm, ?_⟩
  unfold compute_policy_risk
  dsimp only
  rw [if_neg (by omega)]
  dsimp only
  rw [hfm, mul_one]
  have hbase : 0 ≤ policy_base_score (max 0 u) := policy_base_score_nonneg (le_max_left 0 u)
  exact pyInt_of_nonneg (le_min (by norm_num) hbase)

theorem policy_no_division_guard_witness :
    frequency_multiplier [] = 1 ∧
    (compute_policy_risk 5 []).score = ⌊min 40 (policy_base_score (max 0 5))⌋ :=
  policy_no_division_guard 5 [] (by omega) (Or.inl rfl)

/-- Claim C10: the `drift_level` argument of the IAM calculator is never used,
so two documents that differ only in `iam_drift` yield identical reports apart
from the `raw_inputs` echo of the drift value itself. -/
theorem iam_drift_noninterference :
    (∀ d₁ d₂ : String, ∀ c : IamCounts, compute_iam_risk d₁ c = compute_iam_risk d₂ c) ∧
    (∀ (data : RawDoc) (v : Option String),
      (score_doc { data with iam_drift := v }).risk_score = (score_doc data).risk_score ∧
      (score_doc { data with iam_drift := v }).risk_level = (score_doc data).risk_level ∧
      (score_doc { data with iam_drift := v }).component_scores =
        (score_doc data).component_scores ∧
      (score_doc { data with iam_drift := v }).component_details =
        (score_doc data).component_details ∧
      (score_doc { data with iam_drift := v }).risk_analysis = (score_doc data).risk_analysis ∧
      (score_doc { data with iam_drift := v }).subscription_id =
        (score_doc data).subscription_id ∧
      (score_doc { data with iam_drift := v }).resource_group = (score_doc data).resource_group ∧
      (score_doc { data with iam_drift := v }).raw_inputs =
        { (score_doc data).raw_inputs with iam_drift := v.getD "none" }) :=
  ⟨fun _ _ _ => rfl, fun _ _ => ⟨rfl, rfl, rfl, rfl, rfl, rfl, rfl, rfl⟩⟩

theorem frequency_multiplier_nil : frequency_multiplier [] = 1 := by
  unfold frequency_multiplier
  rw [if_pos rfl]
  norm_num

theorem exp_neg_one_bounds : (0.35 : ℝ) < Real.exp (-1) ∧ Real.exp (-1) < (0.375 : ℝ) := by
  rw [Real.exp_neg]
  have h1 := Real.exp_one_gt_d9
  have h2 := Real.exp_one_lt_d9
  have hpos := Real.exp_pos 1
  have hinv : (Real.exp 1)⁻¹ * Real.exp 1 = 1 := inv_mul_cancel₀ (ne_of_gt hpos)
  have hinvpos : 0 < (Real.exp 1)⁻¹ := inv_pos.mpr hpos
  constructor <;> nlinarith

theorem policy_base_score_ten : policy_base_score 10 = 40 * (1 - Real.exp (-1)) := by
  unfold policy_base_score
  norm_num

theorem policy_base_ten_bounds : (25 : ℝ) < policy_base_score 10 ∧ policy_base_score 10 < 26 := by
  rw [policy_base_score_ten]
  obtain ⟨hl, hu⟩ := exp_neg_one_bounds
  constructor <;> nlinarith

/-- Claim C2 counterexample: at `n = 10` with no top policies the code floors
the score to 25 but classifies the severity on the unfloored value 25.28…,
returning `high`, while the claim's floored-score rule (`score ≤ 25 → medium`)
would return `medium`. -/
theorem policy_severity_counterexample :
    (compute_policy_risk 10 []).score = 25 ∧
    (compute_policy_risk 10 []).severity = Severity.high ∧
    severity_from_floored_score (compute_policy_risk 10 []).score = Severity.medium := by
  obtain ⟨h25, h26⟩ := policy_base_ten_bounds
  have hm : max 0 (10 : ℤ) = 10 := by omega
  have hmin : min (40 : ℝ) (policy_base_score 10) = policy_base_score 10 :=
    min_eq_right (le_of_lt (policy_base_score_lt_40 10))
  have hscore : (compute_policy_risk 10 []).score = 25 := by
    unfold compute_policy_risk
    dsimp only
    rw [if_neg (by omega), hm, frequency_multiplier_nil, mul_one, hmin]
    rw [pyInt_of_nonneg (by linarith)]
    rw [Int.floor_eq_iff]
    constructor
    · push_cast
      linarith
    · push_cast
      linarith
  have hsev : (compute_policy_risk 10 []).severity = Severity.high := by
    unfold compute_policy_risk
    dsimp only
    rw [if_neg (by omega), hm, frequency_multiplier_nil, mul_one, hmin]
    rw [if_neg (by linarith), if_neg (by linarith)]
  refine ⟨hscore, hsev, ?_⟩
  rw [hscore]
  decide

theorem sum_records_nonneg (tps : List PolicyEntry)
    (hrec : ∀ p ∈ tps, 0 ≤ p.noncompliant_records) :
    0 ≤ (tps.map PolicyEntry.noncompliant_records).sum := by
  apply List.sum_nonneg
  intro x hx
  obtain ⟨p, hp, rfl⟩ := List.mem_map.mp hx
  exact hrec p hp

theorem frequency_multiplier_eq_spec (tps : List PolicyEntry)
    (hrec : ∀ p ∈ tps, 0 ≤ p.noncompliant_records) :
    frequency_multiplier tps = multiplier_spec tps := by
  unfold frequency_multiplier multiplier_spec concentration_spec
  rcases eq_or_ne tps [] with he | he
  · subst he
    norm_num
  · rw [if_neg he]
    dsimp only
    rcases lt_or_le 0 ((tps.map PolicyEntry.noncompliant_records).sum) with ht | ht
    · rw [if_pos ht]
    · have h0 : (tps.map PolicyEntry.noncompliant_records).sum = 0 :=
        le_antisymm ht (sum_records_nonneg tps hrec)
      rw [if_neg (not_lt.mpr ht), h0]
      norm_num

/-- Claim C2 (amended): for every policy input with nonnegative record counts,
`n = 0` gives score 0 with severity `none`, and for `n > 0` the score is
`⌊min(40, base·mult)⌋` with the concentration multiplier of the claim, while
the severity thresholds (`≤10 → low`, `≤25 → medium`, else `high`) are applied
to the real value `min(40, base·mult)` *before* flooring. -/
theorem policy_risk_functional (u : ℤ) (tps : List PolicyEntry)
    (hrec : ∀ p ∈ tps, 0 ≤ p.noncompliant_records) :
    (max 0 u = 0 → compute_policy_risk u tps =
      { score := 0, severity := Severity.none, details := "No policy violations" }) ∧
    (0 < max 0 u →
      (compute_policy_risk u tps).score =
        ⌊min 40 (policy_base_score (max 0 u) * multiplier_spec tps)⌋ ∧
      (compute_policy_risk u tps).severity =
        (if min 40 (policy_base_score (max 0 u) * multiplier_spec tps) ≤ 10 then Severity.low
         else if min 40 (policy_base_score (max 0 u) * multiplier_spec tps) ≤ 25 then
           Severity.medium
         else Severity.high)) := by
  constructor
  · intro h0
    unfold compute_policy_risk
    rw [if_pos h0]
  · intro hpos
    have hfm := frequency_multiplier_eq_spec tps hrec
    unfold compute_policy_risk
    dsimp only
    rw [if_neg (by omega)]
    dsimp only
    rw [hfm]
    have hsp : 1 ≤ multiplier_spec tps := hfm ▸ one_le_frequency_multiplier tps
    have hbase : 0 ≤ policy_base_score (max 0 u) := policy_base_score_nonneg (le_max_left 0 u)
    have hmin : 0 ≤ min 40 (policy_base_score (max 0 u) * multiplier_spec tps) :=
      le_min (by norm_num) (mul_nonneg hbase (le_trans (by norm_num) hsp))
    exact ⟨pyInt_of_nonneg hmin, rfl⟩

theorem policy_risk_functional_witness :
    (∀ p ∈ ([] : List PolicyEntry), 0 ≤ p.noncompliant_records) ∧
    (0 : ℤ) < max 0 10 ∧
    (compute_policy_risk 10 []).score =
      ⌊min 40 (policy_base_score (max 0 10) * multiplier_spec [])⌋ :=
  ⟨fun p hp => absurd hp (List.not_mem_nil p),
    by omega,
    ((policy_risk_functional 10 [] (fun p hp => absurd hp (List.not_mem_nil p))).2 (by omega)).1⟩

theorem iam_penalty_eq (o cc r : ℤ) :
    (if 0 < o + cc ∧ 0 < r ∧
        (0.5 : ℝ) < ((o + cc : ℤ) : ℝ) / (((o + cc : ℤ) : ℝ) + (r : ℝ)) then (5 : ℝ) else 0) =
      ratio_penalty_spec o cc r := by
  unfold ratio_penalty_spec
  have hcast : ((o + cc : ℤ) : ℝ) = (o : ℝ) + (cc : ℝ) := by push_cast; ring
  rw [hcast]

theorem owner_term_spec_nonneg (o : ℤ) : 0 ≤ owner_term_spec o := by
  unfold owner_term_spec
  split_ifs <;> omega

theorem contributor_term_spec_nonneg (cc : ℤ) : 0 ≤ contributor_term_spec cc := by
  unfold contributor_term_spec
  split_ifs with hc
  · refine le_min (by norm_num) ?_
    have hc' : (0 : ℝ) ≤ (cc : ℝ) := by exact_mod_cast hc.le
    have hexp : Real.exp (-(cc : ℝ) / 20) ≤ 1 := Real.exp_le_one_iff.mpr (by linarith)
    nlinarith
  · exact le_refl 0

theorem ratio_penalty_spec_nonneg (o cc r : ℤ) : 0 ≤ ratio_penalty_spec o cc r := by
  unfold ratio_penalty_spec
  split_ifs <;> norm_num

theorem iam_score_eq (o cc r : ℤ) (ho : 0 ≤ o) :
    min 35 (pyInt ((((if 0 < o then
        (if o = 1 then 5 else if o ≤ 3 then 15 else if o ≤ 5 then 25 else 35)
        else 0 : ℤ)) : ℝ) +
      (if 0 < cc then min 15 (15 * (1 - Real.exp (-(cc : ℝ) / 20))) else 0) +
      (if 0 < o + cc ∧ 0 < r ∧
          (0.5 : ℝ) < ((o + cc : ℤ) : ℝ) / (((o + cc : ℤ) : ℝ) + (r : ℝ)) then (5 : ℝ)
        else 0))) =
    min 35 ⌊(owner_term_spec o : ℝ) + contributor_term_spec cc + ratio_penalty_spec o cc r⌋ := by
  have hown : (if 0 < o then
      (if o = 1 then (5 : ℤ) else if o ≤ 3 then 15 else if o ≤ 5 then 25 else 35)
      else 0) = owner_term_spec o := by
    unfold owner_term_spec
    split_ifs <;> omega
  have hcontrib : (if 0 < cc then min 15 (15 * (1 - Real.exp (-(cc : ℝ) / 20))) else 0) =
      contributor_term_spec cc := rfl
  rw [hown, hcontrib, iam_penalty_eq o cc r]
  have hnn : 0 ≤ (owner_term_spec o : ℝ) + contributor_term_spec cc +
      ratio_penalty_spec o cc r := by
    have h1 : (0 : ℝ) ≤ (owner_term_spec o : ℝ) := by exact_mod_cast owner_term_spec_nonneg o
    have h2 := contributor_term_spec_nonneg cc
    have h3 := ratio_penalty_spec_nonneg o cc r
    linarith
  rw [pyInt_of_nonneg hnn]

theorem iam_severity_eq (o cc : ℤ) :
    (if 0 < cc ∧ (if 0 < o then
        (if 5 < o then Severity.critical else if 3 < o then Severity.high else Severity.medium)
        else Severity.none) = Severity.none then
      (if 30 < cc then Severity.high else if 15 < cc then Severity.medium else Severity.low)
     else (if 0 < o then
        (if 5 < o then Severity.critical else if 3 < o then Severity.high else Severity.medium)
        else Severity.none)) = iam_severity_spec o cc := by
  unfold iam_severity_spec
  by_cases ho : 0 < o
  · by_cases h5 : 5 < o
    · simp [ho, h5]
    · by_cases h3 : 3 < o
      · simp [ho, h5, h3]
      · simp [ho, h5, h3]
  · by_cases hc : 0 < cc
    · simp [ho, hc]
    · simp [ho, hc]

/-- Claim C3: the IAM score is `min(35, ⌊owner term + contributor term +
ratio penalty⌋)` with the owner step function, saturating contributor term and
flat +5 ratio penalty of the claim, all on counts clamped to ≥ 0; the severity
comes from the owner bands when `owners > 0`, else the contributor bands when
`contributors > 0`, else `none`; in particular `owners=6, contributors=10,
readers=5` yields score 35 and severity `critical`. -/
theorem iam_risk_correct :
    (∀ (d : String) (c : IamCounts),
      (compute_iam_risk d c).score =
        min 35 ⌊(owner_term_spec (max 0 c.owners) : ℝ) +
          contributor_term_spec (max 0 c.contributors) +
          ratio_penalty_spec (max 0 c.owners) (max 0 c.contributors) (max 0 c.readers)⌋ ∧
      (compute_iam_risk d c).severity =
        iam_severity_spec (max 0 c.owners) (max 0 c.contributors)) ∧
    (compute_iam_risk "none" ⟨6, 10, 5⟩).score = 35 ∧
    (compute_iam_risk "none" ⟨6, 10, 5⟩).severity = Severity.critical := by
  have main : ∀ (d : String) (c : IamCounts),
      (compute_iam_risk d c).score =
        min 35 ⌊(owner_term_spec (max 0 c.owners) : ℝ) +
          contributor_term_spec (max 0 c.contributors) +
          ratio_penalty_spec (max 0 c.owners) (max 0 c.contributors) (max 0 c.readers)⌋ ∧
      (compute_iam_risk d c).severity =
        iam_severity_spec (max 0 c.owners) (max 0 c.contributors) := by
    intro d c
    unfold compute_iam_risk
    dsimp only
    exact ⟨iam_score_eq (max 0 c.owners) (max 0 c.contributors) (max 0 c.readers)
        (le_max_left 0 c.owners),
      iam_severity_eq (max 0 c.owners) (max 0 c.contributors)⟩
  have h6 : max 0 (6 : ℤ) = 6 := by omega
  have h10 : max 0 (10 : ℤ) = 10 := by omega
  have h5 : max 0 (5 : ℤ) = 5 := by omega
  refine ⟨main, ?_, ?_⟩
  · obtain ⟨hs, _⟩ := main "none" ⟨6, 10, 5⟩
    rw [hs]
    dsimp only
    rw [h6, h10, h5]
    rw [show owner_term_spec 6 = 35 by unfold owner_term_spec; norm_num]
    rw [show ratio_penalty_spec 6 10 5 = 5 by
      unfold ratio_penalty_spec
      rw [if_pos ⟨by norm_num, by norm_num, by norm_num⟩]]
    have hc := contributor_term_spec_nonneg 10
    refine min_eq_left (Int.le_floor.mpr ?_)
    push_cast
    linarith
  · obtain ⟨_, hv⟩ := main "none" ⟨6, 10, 5⟩
    rw [hv]
    dsimp only
    rw [h6, h10]
    unfold iam_severity_spec
    norm_num

/-!  Stability and sortedness of the insertion sort modelling Python's
`sorted(..., key=score, reverse=True)`. -/

theorem insertDesc_perm (x : String × ComponentResult)
    (l : List (String × ComponentResult)) : (insertDesc x l).Perm (x :: l) := by
  induction l with
  | nil => exact List.Perm.refl _
  | cons y ys ih =>
    unfold insertDesc
    split
    · exact List.Perm.refl _
    · exact List.Perm.trans (List.Perm.cons y ih) (List.Perm.swap x y ys)

theorem sortByScoreDesc_perm (l : List (String × ComponentResult)) :
    (sortByScoreDesc l).Perm l := by
  induction l with
  | nil => exact List.Perm.refl _
  | cons x xs ih =>
    exact List.Perm.trans (insertDesc_perm x (sortByScoreDesc xs)) (List.Perm.cons x ih)

theorem insertDesc_pairwise
    (T : (String × ComponentResult) → (String × ComponentResult) → Prop)
    (x : String × ComponentResult) (l : List (String × ComponentResult))
    (hl : l.Pairwise (fun a b => b.2.score < a.2.score ∨ (a.2.score = b.2.score ∧ T a b)))
    (hx : ∀ y ∈ l, T x y) :
    (insertDesc x l).Pairwise
      (fun a b => b.2.score < a.2.score ∨ (a.2.score = b.2.score ∧ T a b)) := by
  induction l with
  | nil => simp [insertDesc]
  | cons y ys ih =>
    obtain ⟨hy, hys⟩ := List.pairwise_cons.mp hl
    unfold insertDesc
    split
    · rename_i hyx
      apply List.Pairwise.cons
      · intro z hz
        have hzy : z.2.score ≤ y.2.score := by
          rcases List.mem_cons.mp hz with rfl | hz'
          · exact le_refl _
          · rcases hy z hz' with hlt | ⟨heq, _⟩
            · exact le_of_lt hlt
            · exact le_of_eq heq.symm
        rcases lt_or_eq_of_le (le_trans hzy hyx) with hlt | heq
        · exact Or.inl hlt
        · exact Or.inr ⟨heq.symm, hx z hz⟩
      · exact hl
    · rename_i hyx
      apply List.Pairwise.cons
      · intro z hz
        rcases List.mem_cons.mp ((insertDesc_perm x ys).mem_iff.mp hz) with rfl | hz'
        · exact Or.inl (not_le.mp hyx)
        · exact hy z hz'
      · exact ih hys (fun z hz => hx z (List.mem_cons_of_mem y hz))

theorem sortByScoreDesc_pairwise
    (T : (String × ComponentResult) → (String × ComponentResult) → Prop)
    (l : List (String × ComponentResult)) (hl : l.Pairwise T) :
    (sortByScoreDesc l).Pairwise
      (fun a b => b.2.score < a.2.score ∨ (a.2.score = b.2.score ∧ T a b)) := by
  induction l with
  | nil => simp [sortByScoreDesc]
  | cons x xs ih =>
    obtain ⟨hx, hxs⟩ := List.pairwise_cons.mp hl
    exact insertDesc_pairwise T x (sortByScoreDesc xs) (ih hxs)
      (fun y hy => hx y ((sortByScoreDesc_perm xs).mem_iff.mp hy))

theorem sortByScoreDesc_sorted (l : List (String × ComponentResult)) :
    (sortByScoreDesc l).Pairwise (fun a b => b.2.score ≤ a.2.score) := by
  have htriv : l.Pairwise (fun _ _ => True) := by
    induction l with
    | nil => exact List.Pairwise.nil
    | cons x xs ih => exact List.Pairwise.cons (fun _ _ => trivial) ih
  exact (sortByScoreDesc_pairwise (fun _ _ => True) l htriv).imp
    (fun hab => hab.elim le_of_lt (fun hab' => le_of_eq hab'.1.symm))

theorem filter_take_of_sorted (l : List (String × ComponentResult))
    (hl : l.Pairwise (fun a b => b.2.score ≤ a.2.score)) (k : ℕ) :
    (l.take k).filter (fun p => 0 < p.2.score) =
      (l.filter (fun p => 0 < p.2.score)).take k := by
  induction l generalizing k with
  | nil => simp
  | cons x xs ih =>
    obtain ⟨hx, hxs⟩ := List.pairwise_cons.mp hl
    cases k with
    | zero => simp
    | succ k =>
      by_cases hpos : 0 < x.2.score
      · have hb : decide (0 < x.2.score) = true := by simpa using hpos
        rw [List.take_succ_cons, List.filter_cons, if_pos hb, ih hxs k, List.filter_cons,
          if_pos hb, List.take_succ_cons]
      · have hb : ¬ decide (0 < x.2.score) = true := by simpa using hpos
        have hall : ∀ y ∈ xs, ¬ 0 < y.2.score := fun y hy hypos =>
          hpos (lt_of_lt_of_le hypos (hx y hy))
        have hnil : ∀ ys : List (String × ComponentResult), (∀ y ∈ ys, ¬ 0 < y.2.score) →
            ys.filter (fun p => 0 < p.2.score) = [] := by
          intro ys hys
          rw [List.filter_eq_nil_iff]
          intro y hy
          simp only [decide_eq_true_eq]
          exact hys y hy
        rw [List.take_succ_cons, List.filter_cons, List.filter_cons, if_neg hb, if_neg hb]
        rw [hnil _ (fun y hy => hall y (List.mem_of_mem_take hy)), hnil _ hall]
        simp

/-- Claim C5: `top_risk_drivers` consists of exactly the components whose
score is strictly positive, sorted in descending score order with ties kept in
the canonical order policy, iam, defender, network, encryption (stable sort),
truncated to at most 3 entries, each a `{component, score, severity}` triple. -/
theorem top_risk_drivers_correct (c : Components) :
    top_risk_drivers c =
      (((sortByScoreDesc c.toList).filter (fun p => 0 < p.2.score)).take 3).map
        (fun p => { component := p.1, score := p.2.score, severity := p.2.severity : Driver }) ∧
    (top_risk_drivers c).length ≤ 3 ∧
    (∀ d ∈ top_risk_drivers c, 0 < d.score) ∧
    (top_risk_drivers c).Pairwise (fun a b => b.score ≤ a.score) ∧
    (sortByScoreDesc c.toList).Perm c.toList ∧
    (sortByScoreDesc c.toList).Pairwise (fun a b =>
      b.2.score < a.2.score ∨ (a.2.score = b.2.score ∧ canon_idx a.1 < canon_idx b.1)) := by
  have hsorted := sortByScoreDesc_sorted c.toList
  have heq : top_risk_drivers c =
      (((sortByScoreDesc c.toList).filter (fun p => 0 < p.2.score)).take 3).map
        (fun p => { component := p.1, score := p.2.score, severity := p.2.severity : Driver }) := by
    unfold top_risk_drivers
    rw [filter_take_of_sorted _ hsorted 3]
  refine ⟨heq, ?_, ?_, ?_, sortByScoreDesc_perm c.toList, ?_⟩
  · rw [heq, List.length_map, List.length_take]
    exact min_le_left _ _
  · intro d hd
    rw [heq] at hd
    obtain ⟨p, hp, rfl⟩ := List.mem_map.mp hd
    have h1 := List.mem_of_mem_take hp
    have h2 := (List.mem_filter.mp h1).2
    simpa using h2
  · rw [heq, List.pairwise_map]
    exact List.Pairwise.sublist
      (List.Sublist.trans (List.take_sublist _ _) (List.filter_sublist _)) hsorted
  · have hcanon : c.toList.Pairwise (fun a b => canon_idx a.1 < canon_idx b.1) := by
      simp [Components.toList]
      decide
    exact sortByScoreDesc_pairwise _ c.toList hcanon

theorem clamp_idem (z : ℤ) : max 0 (max 0 z) = max 0 z := by omega

/-- Claim C7 counterexample: the network calculator does not clamp before
formatting its details, so with `open_high_risk_ports = -2` the returned
result (its details echo the raw `-2`) differs from the result on the
zero-replaced input, although score and severity agree. -/
theorem clamping_counterexample :
    compute_network_risk (Option.some ⟨-2, 0, 1, 0, 0⟩) ≠
      compute_network_risk (Option.some ⟨0, 0, 1, 0, 0⟩) := by
  decide

/-- Claim C7 (amended): policy, IAM and defender clamp their counts to zero
before any branch is selected, so their results on negative counts equal the
results on the zero-replaced counts outright; the defender logarithm arguments
are at least 2 whenever the logarithmic branches are taken; and the network
and encryption calculators agree on negative counts with the zero-replaced
counts in score and severity (their details echo the raw counts). -/
theorem clamping_before_branches :
    (∀ hi me lo : ℤ, compute_defender_risk hi me lo =
      compute_defender_risk (max 0 hi) (max 0 me) (max 0 lo)) ∧
    (∀ hi : ℤ, 5 < max 0 hi → (2 : ℝ) ≤ ((max 0 hi : ℤ) : ℝ) - 4) ∧
    (∀ me : ℤ, 10 < max 0 me → (2 : ℝ) ≤ ((max 0 me : ℤ) : ℝ) - 9) ∧
    (∀ (u : ℤ) (tps : List PolicyEntry),
      compute_policy_risk u tps = compute_policy_risk (max 0 u) tps) ∧
    (∀ (d : String) (c : IamCounts), compute_iam_risk d c =
      compute_iam_risk d ⟨max 0 c.owners, max 0 c.contributors, max 0 c.readers⟩) ∧
    (∀ p i n t1 t2 : ℤ,
      (compute_network_risk (Option.some ⟨p, i, n, t1, t2⟩)).score =
        (compute_network_risk (Option.some ⟨max 0 p, max 0 i, max 0 n, t1, t2⟩)).score ∧
      (compute_network_risk (Option.some ⟨p, i, n, t1, t2⟩)).severity =
        (compute_network_risk (Option.some ⟨max 0 p, max 0 i, max 0 n, t1, t2⟩)).severity) ∧
    (∀ s w k h1 h2 : ℤ,
      (compute_encryption_risk (Option.some ⟨s, w, k, h1, h2⟩)).score =
        (compute_encryption_risk (Option.some ⟨max 0 s, max 0 w, max 0 k, h1, h2⟩)).score ∧
      (compute_encryption_risk (Option.some ⟨s, w, k, h1, h2⟩)).severity =
        (compute_encryption_risk (Option.some ⟨max 0 s, max 0 w, max 0 k, h1, h2⟩)).severity) := by
  refine ⟨?_, ?_, ?_, ?_, ?_, ?_, ?_⟩
  · intro hi me lo
    unfold compute_defender_risk
    simp only [clamp_idem]
  · intro hi hh
    have h6 : (6 : ℤ) ≤ max 0 hi := by omega
    have h6' : (6 : ℝ) ≤ ((max 0 hi : ℤ) : ℝ) := by exact_mod_cast h6
    linarith
  · intro me hm
    have h11 : (11 : ℤ) ≤ max 0 me := by omega
    have h11' : (11 : ℝ) ≤ ((max 0 me : ℤ) : ℝ) := by exact_mod_cast h11
    linarith
  · intro u tps
    unfold compute_policy_risk
    simp only [clamp_idem]
  · intro d c
    unfold compute_iam_risk
    dsimp only
    simp only [clamp_idem]
  · intro p i n t1 t2
    unfold compute_network_risk
    simp only [Option.getD_some]
    have h1 : (if 0 < p then min 10 (p * 3) else 0) =
        (if 0 < max 0 p then min 10 (max 0 p * 3) else 0) := by
      split_ifs <;> omega
    have h2 : (if 5 < i then (3 : ℤ) else if 2 < i then 2 else 0) =
        (if 5 < max 0 i then 3 else if 2 < max 0 i then 2 else 0) := by
      split_ifs <;> omega
    have h3 : (if 0 < n then min 5 (n * 2) else 0) =
        (if 0 < max 0 n then min 5 (max 0 n * 2) else 0) := by
      split_ifs <;> omega
    rw [h1, h2, h3]
    constructor
    · split_ifs <;> rfl
    · split_ifs <;> rfl
  · intro s w k h1 h2
    unfold compute_encryption_risk
    simp only [Option.getD_some]
    have e1 : (if 0 < s then (5 : ℤ) else 0) = (if 0 < max 0 s then 5 else 0) := by
      split_ifs <;> omega
    have e2 : (if 0 < w then (3 : ℤ) else 0) = (if 0 < max 0 w then 3 else 0) := by
      split_ifs <;> omega
    have e3 : (if 3 < k then (2 : ℤ) else 0) = (if 3 < max 0 k then 2 else 0) := by
      split_ifs <;> omega
    simp only [e1, e2, e3]
    constructor
    · split_ifs <;> rfl
    · split_ifs <;> rfl

theorem clamping_before_branches_witness :
    5 < max 0 (7 : ℤ) ∧ (2 : ℝ) ≤ ((max 0 (7 : ℤ) : ℤ) : ℝ) - 4 ∧
    10 < max 0 (12 : ℤ) ∧ (2 : ℝ) ≤ ((max 0 (12 : ℤ) : ℤ) : ℝ) - 9 :=
  ⟨by omega, clamping_before_branches.2.1 7 (by omega),
   by omega, clamping_before_branches.2.2.1 12 (by omega)⟩

theorem pyInt_zero : pyInt 0 = 0 := by
  rw [show (0 : ℝ) = ((0 : ℤ) : ℝ) by norm_num, pyInt_intCast]

theorem policy_zero_result :
    compute_policy_risk 0 [] =
      { score := 0, severity := Severity.none, details := "No policy violations" } := by
  unfold compute_policy_risk
  norm_num

theorem iam_zero_result (d : String) :
    compute_iam_risk d ⟨0, 0, 0⟩ =
      { score := 0, severity := Severity.none,
        details := "Owners: 0, Contributors: 0, Readers: 0" } := by
  unfold compute_iam_risk
  norm_num [pyInt_zero]
  decide

theorem defender_zero_result :
    compute_defender_risk 0 0 0 =
      { score := 0, severity := Severity.none, details := "No Defender alerts" } := by
  unfold compute_defender_risk
  norm_num

theorem iam_json_agrees (d : String) (o c r : ℤ) :
    compute_iam_risk_json (Json.str d)
        (Json.obj [("owners", Json.int o), ("contributors", Json.int c),
          ("readers", Json.int r)]) =
      Except.ok (compute_iam_risk d ⟨o, c, r⟩) := by
  unfold compute_iam_risk_json
  rcases eq_or_ne d "" with rfl | hne
  · rfl
  · have ht : pyOr (Json.str d) (Json.str "") = Json.str d := by
      unfold pyOr Json.truthy
      simp [hne]
    rw [ht]
    rfl

/-- Claim C8 (amended): a wholly absent raw signal document fails with the
missing-input error (Python's `FileNotFoundError`, which the specification
names `MissingInputError`) surfaced unmodified, and missing sections are
never fatal — they default to the all-zero result with severity `none`; but
the loader also raises `UnicodeDecodeError` when no attempted encoding
decodes the file and lets `json.JSONDecodeError` propagate uncaught, and
while well-typed section values flow through the dynamically-typed prologue
unchanged, wrong-typed ones raise further exception classes (see the
counterexample). -/
theorem missing_input_error_handling :
    load_real_inputs Option.none = Except.error PyError.fileNotFound ∧
    load_real_inputs (Option.some FileRead.undecodable) =
      Except.error PyError.unicodeDecodeError ∧
    load_real_inputs (Option.some FileRead.unparsable) =
      Except.error PyError.jsonDecodeError ∧
    (∀ j : Json, load_real_inputs (Option.some (FileRead.parsed j)) = Except.ok j) ∧
    (∀ d : RawDoc, d.policy = Option.none →
      (score_doc d).component_details.policy =
        { score := 0, severity := Severity.none, details := "No policy violations" }) ∧
    (∀ d : RawDoc, d.iam_counts = Option.none →
      (score_doc d).component_details.iam =
        { score := 0, severity := Severity.none,
          details := "Owners: 0, Contributors: 0, Readers: 0" }) ∧
    (∀ d : RawDoc, d.defender = Option.none →
      (score_doc d).component_details.defender =
        { score := 0, severity := Severity.none, details := "No Defender alerts" }) ∧
    (∀ d : RawDoc, d.network = Option.none →
      (score_doc d).component_details.network =
        { score := 0, severity := Severity.none, details := "No network issues detected" }) ∧
    (∀ d : RawDoc, d.encryption = Option.none →
      (score_doc d).component_details.encryption =
        { score := 0, severity := Severity.none, details := "Encryption controls adequate" }) ∧
    (∀ (d : String) (o c r : ℤ),
      compute_iam_risk_json (Json.str d)
          (Json.obj [("owners", Json.int o), ("contributors", Json.int c),
            ("readers", Json.int r)]) =
        Except.ok (compute_iam_risk d ⟨o, c, r⟩)) ∧
    compute_iam_risk_json (Json.str "none") (Json.obj []) =
      Except.ok (compute_iam_risk "none" ⟨0, 0, 0⟩) := by
  refine ⟨rfl, rfl, rfl, fun j => rfl, ?_, ?_, ?_, ?_, ?_, iam_json_agrees, rfl⟩
  · intro d hd
    simp only [score_doc, hd, Option.getD_none]
    exact policy_zero_result
  · intro d hd
    simp only [score_doc, hd, Option.getD_none]
    exact iam_zero_result _
  · intro d hd
    simp only [score_doc, hd, Option.getD_none]
    exact defender_zero_result
  · intro d hd
    simp only [score_doc, hd, Option.getD_none]
    decide
  · intro d hd
    simp only [score_doc, hd, Option.getD_none]
    decide

/-- Claim C8 counterexample: malformed sections are fatal and exception
classes other than the missing-input error escape the program: a truthy
non-dict `iam_counts = 5` passes the `or \x7b\x7d` resolver of line 346
untouched, and `iam_counts.get` then raises `AttributeError` at line 59;
`int("lots")` raises `ValueError` (the conversions of lines 14 and 59-61);
and a file no attempted encoding decodes raises `UnicodeDecodeError` at
line 324. -/
theorem malformed_section_counterexample :
    resolve_section (Json.obj [("iam_counts", Json.int 5)]) "iam_counts" =
      Except.ok (Json.int 5) ∧
    compute_iam_risk_json (Json.str "none") (Json.int 5) =
      Except.error PyError.attributeError ∧
    pyToInt (Json.str "lots") = Except.error PyError.valueError ∧
    load_real_inputs (Option.some FileRead.undecodable) =
      Except.error PyError.unicodeDecodeError :=
  ⟨rfl, rfl, rfl, rfl⟩

/-- The all-absent raw signal document. -/
def emptyDoc : RawDoc :=
  ⟨Option.none, Option.none, Option.none, Option.none, Option.none, [], [],
   Option.none, Option.none, Option.none⟩

theorem missing_input_error_handling_witness :
    load_real_inputs Option.none = Except.error PyError.fileNotFound ∧
    (score_doc emptyDoc).component_details.policy =
      { score := 0, severity := Severity.none, details := "No policy violations" } ∧
    (score_doc emptyDoc).component_details.iam =
      { score := 0, severity := Severity.none,
        details := "Owners: 0, Contributors: 0, Readers: 0" } ∧
    (score_doc emptyDoc).component_details.defender =
      { score := 0, severity := Severity.none, details := "No Defender alerts" } ∧
    (score_doc emptyDoc).component_details.network =
      { score := 0, severity := Severity.none, details := "No network issues detected" } ∧
    (score_doc emptyDoc).component_details.encryption =
      { score := 0, severity := Severity.none, details := "Encryption controls adequate" } ∧
    compute_iam_risk_json (Json.str "none")
        (Json.obj [("owners", Json.int 2), ("contributors", Json.int 3),
          ("readers", Json.int 4)]) =
      Except.ok (compute_iam_risk "none" ⟨2, 3, 4⟩) :=
  ⟨missing_input_error_handling.1,
   missing_input_error_handling.2.2.2.2.1 emptyDoc rfl,
   missing_input_error_handling.2.2.2.2.2.1 emptyDoc rfl,
   missing_input_error_handling.2.2.2.2.2.2.1 emptyDoc rfl,
   missing_input_error_handling.2.2.2.2.2.2.2.1 emptyDoc rfl,
   missing_input_error_handling.2.2.2.2.2.2.2.2.1 emptyDoc rfl,
   missing_input_error_handling.2.2.2.2.2.2.2.2.2.1 "none" 2 3 4⟩

theorem iam_score_spec_form (d : String) (c : IamCounts) :
    (compute_iam_risk d c).score =
      min 35 ⌊(owner_term_spec (max 0 c.owners) : ℝ) +
        contributor_term_spec (max 0 c.contributors) +
        ratio_penalty_spec (max 0 c.owners) (max 0 c.contributors) (max 0 c.readers)⌋ := by
  unfold compute_iam_risk
  dsimp only
  exact iam_score_eq _ _ _ (le_max_left 0 c.owners)

/-- Claim C6 counterexample: the IAM score is not monotone in the readers
count — with owners 2 and contributors 0, raising readers from 1 to 3 drops
the privilege ratio from 2/3 to 2/5, removing the +5 penalty, so the score
falls from 20 to 15. -/
theorem monotonicity_counterexample :
    (compute_iam_risk "none" ⟨2, 0, 3⟩).score < (compute_iam_risk "none" ⟨2, 0, 1⟩).score := by
  rw [iam_score_spec_form, iam_score_spec_form]
  dsimp only
  rw [show max 0 (2 : ℤ) = 2 by omega, show max 0 (0 : ℤ) = 0 by omega,
    show max 0 (3 : ℤ) = 3 by omega, show max 0 (1 : ℤ) = 1 by omega]
  rw [show owner_term_spec 2 = 15 by norm_num [owner_term_spec]]
  rw [show contributor_term_spec 0 = 0 by norm_num [contributor_term_spec]]
  rw [show ratio_penalty_spec 2 0 3 = 0 by
    unfold ratio_penalty_spec
    rw [if_neg]
    intro hcond
    have h3 := hcond.2.2
    norm_num at h3]
  rw [show ratio_penalty_spec 2 0 1 = 5 by
    unfold ratio_penalty_spec
    rw [if_pos ⟨by norm_num, by norm_num, by norm_num⟩]]
  rw [show ((15 : ℤ) : ℝ) + 0 + 0 = ((15 : ℤ) : ℝ) by ring,
    show ((15 : ℤ) : ℝ) + 0 + 5 = ((20 : ℤ) : ℝ) by push_cast; ring]
  rw [Int.floor_intCast, Int.floor_intCast]
  norm_num

/-!  Monotonicity helpers. -/

theorem policy_base_score_mono {a b : ℤ} (h : a ≤ b) :
    policy_base_score a ≤ policy_base_score b := by
  unfold policy_base_score
  have hab : (a : ℝ) ≤ (b : ℝ) := by exact_mod_cast h
  have hexp : Real.exp (-(b : ℝ) / 10) ≤ Real.exp (-(a : ℝ) / 10) :=
    Real.exp_le_exp.mpr (by linarith)
  linarith

theorem policy_score_eq_of_pos {u : ℤ} (hu : 0 < max 0 u) (tps : List PolicyEntry) :
    (compute_policy_risk u tps).score =
      pyInt (min 40 (policy_base_score (max 0 u) * frequency_multiplier tps)) := by
  unfold compute_policy_risk
  dsimp only
  rw [if_neg (by omega)]

theorem owner_term_spec_mono {a b : ℤ} (h0 : 0 ≤ a) (h : a ≤ b) :
    owner_term_spec a ≤ owner_term_spec b := by
  unfold owner_term_spec
  split_ifs <;> omega

theorem contributor_term_spec_mono {a b : ℤ} (h : a ≤ b) :
    contributor_term_spec a ≤ contributor_term_spec b := by
  unfold contributor_term_spec
  split_ifs with h1 h2
  · apply min_le_min (le_refl _)
    have hab : (a : ℝ) ≤ (b : ℝ) := by exact_mod_cast h
    have hexp : Real.exp (-(b : ℝ) / 20) ≤ Real.exp (-(a : ℝ) / 20) :=
      Real.exp_le_exp.mpr (by linarith)
    linarith
  · exfalso
    omega
  · rename_i h2
    refine le_min (by norm_num) ?_
    have hb : (0 : ℝ) < (b : ℝ) := by exact_mod_cast h2
    have hexp : Real.exp (-(b : ℝ) / 20) ≤ 1 := Real.exp_le_one_iff.mpr (by linarith)
    nlinarith
  · exact le_refl 0

theorem ratio_penalty_spec_mono {o c o' c' r : ℤ} (h : o + c ≤ o' + c') :
    ratio_penalty_spec o c r ≤ ratio_penalty_spec o' c' r := by
  unfold ratio_penalty_spec
  split_ifs with h1 h2
  · exact le_refl _
  · exfalso
    apply h2
    obtain ⟨ha, hb, hc⟩ := h1
    refine ⟨by omega, hb, ?_⟩
    have hx : (0 : ℝ) < (o : ℝ) + (c : ℝ) := by exact_mod_cast ha
    have hρ : (0 : ℝ) < (r : ℝ) := by exact_mod_cast hb
    have hxx : (o : ℝ) + (c : ℝ) ≤ (o' : ℝ) + (c' : ℝ) := by exact_mod_cast h
    have hstep : ((o : ℝ) + (c : ℝ)) / ((o : ℝ) + (c : ℝ) + (r : ℝ)) ≤
        ((o' : ℝ) + (c' : ℝ)) / ((o' : ℝ) + (c' : ℝ) + (r : ℝ)) := by
      rw [div_le_div_iff (by linarith) (by linarith)]
      nlinarith
    linarith
  · norm_num
  · norm_num

theorem defender_high_term_mono {a b : ℤ} (h0 : 0 ≤ a) (h : a ≤ b) :
    (if a ≤ 5 then (a : ℝ) * 20 else 100 + 20 * Real.log ((a : ℝ) - 4)) ≤
      (if b ≤ 5 then (b : ℝ) * 20 else 100 + 20 * Real.log ((b : ℝ) - 4)) := by
  have hab : (a : ℝ) ≤ (b : ℝ) := by exact_mod_cast h
  split_ifs with h1 h2 h2
  · nlinarith
  · have h5 : (a : ℝ) ≤ 5 := by exact_mod_cast h1
    have h6 : (6 : ℤ) ≤ b := by omega
    have h6' : (6 : ℝ) ≤ (b : ℝ) := by exact_mod_cast h6
    have hlog : 0 ≤ Real.log ((b : ℝ) - 4) := Real.log_nonneg (by linarith)
    nlinarith
  · exfalso
    omega
  · have h6a : (6 : ℤ) ≤ a := by omega
    have h6a' : (6 : ℝ) ≤ (a : ℝ) := by exact_mod_cast h6a
    have hlog := Real.log_le_log (show (0 : ℝ) < (a : ℝ) - 4 by linarith)
      (show (a : ℝ) - 4 ≤ (b : ℝ) - 4 by linarith)
    linarith

theorem defender_medium_term_mono {a b : ℤ} (h0 : 0 ≤ a) (h : a ≤ b) :
    (if a ≤ 10 then (a : ℝ) * 8 else 80 + 8 * Real.log ((a : ℝ) - 9)) ≤
      (if b ≤ 10 then (b : ℝ) * 8 else 80 + 8 * Real.log ((b : ℝ) - 9)) := by
  have hab : (a : ℝ) ≤ (b : ℝ) := by exact_mod_cast h
  split_ifs with h1 h2 h2
  · nlinarith
  · have h10 : (a : ℝ) ≤ 10 := by exact_mod_cast h1
    have h11 : (11 : ℤ) ≤ b := by omega
    have h11' : (11 : ℝ) ≤ (b : ℝ) := by exact_mod_cast h11
    have hlog : 0 ≤ Real.log ((b : ℝ) - 9) := Real.log_nonneg (by linarith)
    nlinarith
  · exfalso
    omega
  · have h11a : (11 : ℤ) ≤ a := by omega
    have h11a' : (11 : ℝ) ≤ (a : ℝ) := by exact_mod_cast h11a
    have hlog := Real.log_le_log (show (0 : ℝ) < (a : ℝ) - 9 by linarith)
      (show (a : ℝ) - 9 ≤ (b : ℝ) - 9 by linarith)
    linarith

theorem defender_score_zero {hi me lo : ℤ}
    (hz : max 0 hi = 0 ∧ max 0 me = 0 ∧ max 0 lo = 0) :
    (compute_defender_risk hi me lo).score = 0 := by
  unfold compute_defender_risk
  dsimp only
  rw [if_pos hz]

theorem defender_score_formula {hi me lo : ℤ}
    (hne : ¬(max 0 hi = 0 ∧ max 0 me = 0 ∧ max 0 lo = 0)) :
    (compute_defender_risk hi me lo).score =
      min 35 (pyInt
        ((if max 0 hi ≤ 5 then ((max 0 hi : ℤ) : ℝ) * 20
          else 100 + 20 * Real.log (((max 0 hi : ℤ) : ℝ) - 4)) +
         (if max 0 me ≤ 10 then ((max 0 me : ℤ) : ℝ) * 8
          else 80 + 8 * Real.log (((max 0 me : ℤ) : ℝ) - 9)) +
         min 10 (((max 0 lo : ℤ) : ℝ) * 2))) := by
  unfold compute_defender_risk
  dsimp only
  rw [if_neg hne]

theorem network_score_formula (p i n t1 t2 : ℤ) :
    (compute_network_risk (Option.some ⟨p, i, n, t1, t2⟩)).score =
      min 15 ((if 0 < p then min 10 (p * 3) else 0) +
        (if 5 < i then 3 else if 2 < i then 2 else 0) +
        (if 0 < n then min 5 (n * 2) else 0)) := by
  unfold compute_network_risk
  simp only [Option.getD_some]
  by_cases h : (if 0 < p then min 10 (p * 3) else 0) +
      (if 5 < i then 3 else if 2 < i then 2 else 0) +
      (if 0 < n then min 5 (n * 2) else 0) = 0
  · rw [if_pos h]
    dsimp only
    omega
  · rw [if_neg h]

theorem encryption_score_formula (s w k h1 h2 : ℤ) :
    (compute_encryption_risk (Option.some ⟨s, w, k, h1, h2⟩)).score =
      min 10 ((if 0 < s then 5 else 0) + (if 0 < w then 3 else 0) +
        (if 3 < k then 2 else 0)) := by
  unfold compute_encryption_risk
  simp only [Option.getD_some]
  by_cases h : (if 0 < s then (5 : ℤ) else 0) + (if 0 < w then 3 else 0) +
      (if 3 < k then 2 else 0) = 0
  · rw [if_pos h]
    dsimp only
    omega
  · rw [if_neg h]

/-- Claim C6 (amended): each component score is monotone non-decreasing in its
driving counts — policy in `n`, IAM in `owners` and `contributors`, defender
in `high`, `medium` and `low` (including across the linear-to-logarithmic
boundaries), network in its three counts and encryption in its three counts —
with the one exception exhibited by the counterexample: the IAM score is not
monotone in `readers`. -/
theorem calculator_monotonicity :
    (∀ (u u' : ℤ) (tps : List PolicyEntry), u ≤ u' →
      (compute_policy_risk u tps).score ≤ (compute_policy_risk u' tps).score) ∧
    (∀ (d : String) (o o' c r : ℤ), o ≤ o' →
      (compute_iam_risk d ⟨o, c, r⟩).score ≤ (compute_iam_risk d ⟨o', c, r⟩).score) ∧
    (∀ (d : String) (o c c' r : ℤ), c ≤ c' →
      (compute_iam_risk d ⟨o, c, r⟩).score ≤ (compute_iam_risk d ⟨o, c', r⟩).score) ∧
    (∀ hi hi' me lo : ℤ, hi ≤ hi' →
      (compute_defender_risk hi me lo).score ≤ (compute_defender_risk hi' me lo).score) ∧
    (∀ hi me me' lo : ℤ, me ≤ me' →
      (compute_defender_risk hi me lo).score ≤ (compute_defender_risk hi me' lo).score) ∧
    (∀ hi me lo lo' : ℤ, lo ≤ lo' →
      (compute_defender_risk hi me lo).score ≤ (compute_defender_risk hi me lo').score) ∧
    (∀ p p' i n t1 t2 : ℤ, p ≤ p' →
      (compute_network_risk (Option.some ⟨p, i, n, t1, t2⟩)).score ≤
        (compute_network_risk (Option.some ⟨p', i, n, t1, t2⟩)).score) ∧
    (∀ p i i' n t1 t2 : ℤ, i ≤ i' →
      (compute_network_risk (Option.some ⟨p, i, n, t1, t2⟩)).score ≤
        (compute_network_risk (Option.some ⟨p, i', n, t1, t2⟩)).score) ∧
    (∀ p i n n' t1 t2 : ℤ, n ≤ n' →
      (compute_network_risk (Option.some ⟨p, i, n, t1, t2⟩)).score ≤
        (compute_network_risk (Option.some ⟨p, i, n', t1, t2⟩)).score) ∧
    (∀ s s' w k h1 h2 : ℤ, s ≤ s' →
      (compute_encryption_risk (Option.some ⟨s, w, k, h1, h2⟩)).score ≤
        (compute_encryption_risk (Option.some ⟨s', w, k, h1, h2⟩)).score) ∧
    (∀ s w w' k h1 h2 : ℤ, w ≤ w' →
      (compute_encryption_risk (Option.some ⟨s, w, k, h1, h2⟩)).score ≤
        (compute_encryption_risk (Option.some ⟨s, w', k, h1, h2⟩)).score) ∧
    (∀ s w k k' h1 h2 : ℤ, k ≤ k' →
      (compute_encryption_risk (Option.some ⟨s, w, k, h1, h2⟩)).score ≤
        (compute_encryption_risk (Option.some ⟨s, w, k', h1, h2⟩)).score) := by
  refine ⟨?_, ?_, ?_, ?_, ?_, ?_, ?_, ?_, ?_, ?_, ?_, ?_⟩
  · intro u u' tps hu
    by_cases h0 : max 0 u = 0
    · have hz : (compute_policy_risk u tps).score = 0 := by
        unfold compute_policy_risk
        dsimp only
        rw [if_pos h0]
      rw [hz]
      exact (policy_score_bounds u' tps).1
    · have hpos : 0 < max 0 u := by omega
      have hpos' : 0 < max 0 u' := by omega
      rw [policy_score_eq_of_pos hpos tps, policy_score_eq_of_pos hpos' tps]
      apply pyInt_mono
      apply min_le_min (le_refl _)
      exact mul_le_mul_of_nonneg_right (policy_base_score_mono (by omega))
        (frequency_multiplier_nonneg tps)
  · intro d o o' c r h
    rw [iam_score_spec_form, iam_score_spec_form]
    dsimp only
    refine min_le_min (le_refl _) (Int.floor_le_floor ?_)
    have h1 : (owner_term_spec (max 0 o) : ℝ) ≤ (owner_term_spec (max 0 o') : ℝ) := by
      exact_mod_cast owner_term_spec_mono (le_max_left 0 o)
        (show max 0 o ≤ max 0 o' by omega)
    have h2 : ratio_penalty_spec (max 0 o) (max 0 c) (max 0 r) ≤
        ratio_penalty_spec (max 0 o') (max 0 c) (max 0 r) :=
      ratio_penalty_spec_mono (by omega)
    linarith
  · intro d o c c' r h
    rw [iam_score_spec_form, iam_score_spec_form]
    dsimp only
    refine min_le_min (le_refl _) (Int.floor_le_floor ?_)
    have h1 : contributor_term_spec (max 0 c) ≤ contributor_term_spec (max 0 c') :=
      contributor_term_spec_mono (show max 0 c ≤ max 0 c' by omega)
    have h2 : ratio_penalty_spec (max 0 o) (max 0 c) (max 0 r) ≤
        ratio_penalty_spec (max 0 o) (max 0 c') (max 0 r) :=
      ratio_penalty_spec_mono (by omega)
    linarith
  · intro hi hi' me lo h
    by_cases hz : max 0 hi = 0 ∧ max 0 me = 0 ∧ max 0 lo = 0
    · rw [defender_score_zero hz]
      exact (defender_score_bounds hi' me lo).1
    · have hz' : ¬(max 0 hi' = 0 ∧ max 0 me = 0 ∧ max 0 lo = 0) := by omega
      rw [defender_score_formula hz, defender_score_formula hz']
      refine min_le_min (le_refl _) (pyInt_mono ?_)
      have h1 := defender_high_term_mono (le_max_left 0 hi)
        (show max 0 hi ≤ max 0 hi' by omega)
      linarith
  · intro hi me me' lo h
    by_cases hz : max 0 hi = 0 ∧ max 0 me = 0 ∧ max 0 lo = 0
    · rw [defender_score_zero hz]
      exact (defender_score_bounds hi me' lo).1
    · have hz' : ¬(max 0 hi = 0 ∧ max 0 me' = 0 ∧ max 0 lo = 0) := by omega
      rw [defender_score_formula hz, defender_score_formula hz']
      refine min_le_min (le_refl _) (pyInt_mono ?_)
      have h1 := defender_medium_term_mono (le_max_left 0 me)
        (show max 0 me ≤ max 0 me' by omega)
      linarith
  · intro hi me lo lo' h
    by_cases hz : max 0 hi = 0 ∧ max 0 me = 0 ∧ max 0 lo = 0
    · rw [defender_score_zero hz]
      exact (defender_score_bounds hi me lo').1
    · have hz' : ¬(max 0 hi = 0 ∧ max 0 me = 0 ∧ max 0 lo' = 0) := by omega
      rw [defender_score_formula hz, defender_score_formula hz']
      refine min_le_min (le_refl _) (pyInt_mono ?_)
      have h1 : min (10 : ℝ) (((max 0 lo : ℤ) : ℝ) * 2) ≤
          min 10 (((max 0 lo' : ℤ) : ℝ) * 2) := by
        apply min_le_min (le_refl _)
        have hc : ((max 0 lo : ℤ) : ℝ) ≤ ((max 0 lo' : ℤ) : ℝ) := by
          exact_mod_cast (show max 0 lo ≤ max 0 lo' by omega)
        linarith
      linarith
  · intro p p' i n t1 t2 h
    rw [network_score_formula, network_score_formula]
    split_ifs <;> omega
  · intro p i i' n t1 t2 h
    rw [network_score_formula, network_score_formula]
    split_ifs <;> omega
  · intro p i n n' t1 t2 h
    rw [network_score_formula, network_score_formula]
    split_ifs <;> omega
  · intro s s' w k h1 h2 h
    rw [encryption_score_formula, encryption_score_formula]
    split_ifs <;> omega
  · intro s w w' k h1 h2 h
    rw [encryption_score_formula, encryption_score_formula]
    split_ifs <;> omega
  · intro s w k k' h1 h2 h
    rw [encryption_score_formula, encryption_score_formula]
    split_ifs <;> omega

theorem calculator_monotonicity_witness :
    (compute_policy_risk 3 []).score ≤ (compute_policy_risk 5 []).score ∧
    (compute_iam_risk "none" ⟨1, 2, 3⟩).score ≤ (compute_iam_risk "none" ⟨2, 2, 3⟩).score ∧
    (compute_iam_risk "none" ⟨1, 2, 3⟩).score ≤ (compute_iam_risk "none" ⟨1, 4, 3⟩).score ∧
    (compute_defender_risk 4 2 1).score ≤ (compute_defender_risk 6 2 1).score ∧
    (compute_defender_risk 4 9 1).score ≤ (compute_defender_risk 4 11 1).score ∧
    (compute_defender_risk 4 2 1).score ≤ (compute_defender_risk 4 2 2).score ∧
    (compute_network_risk (Option.some ⟨1, 1, 1, 0, 0⟩)).score ≤
      (compute_network_risk (Option.some ⟨2, 1, 1, 0, 0⟩)).score ∧
    (compute_network_risk (Option.some ⟨1, 1, 1, 0, 0⟩)).score ≤
      (compute_network_risk (Option.some ⟨1, 3, 1, 0, 0⟩)).score ∧
    (compute_network_risk (Option.some ⟨1, 1, 1, 0, 0⟩)).score ≤
      (compute_network_risk (Option.some ⟨1, 1, 2, 0, 0⟩)).score ∧
    (compute_encryption_risk (Option.some ⟨0, 1, 1, 0, 0⟩)).score ≤
      (compute_encryption_risk (Option.some ⟨1, 1, 1, 0, 0⟩)).score ∧
    (compute_encryption_risk (Option.some ⟨1, 0, 1, 0, 0⟩)).score ≤
      (compute_encryption_risk (Option.some ⟨1, 1, 1, 0, 0⟩)).score ∧
    (compute_encryption_risk (Option.some ⟨1, 1, 3, 0, 0⟩)).score ≤
      (compute_encryption_risk (Option.some ⟨1, 1, 4, 0, 0⟩)).score :=
  ⟨calculator_monotonicity.1 3 5 [] (by omega),
   calculator_monotonicity.2.1 "none" 1 2 2 3 (by omega),
   calculator_monotonicity.2.2.1 "none" 1 2 4 3 (by omega),
   calculator_monotonicity.2.2.2.1 4 6 2 1 (by omega),
   calculator_monotonicity.2.2.2.2.1 4 9 11 1 (by omega),
   calculator_monotonicity.2.2.2.2.2.1 4 2 1 2 (by omega),
   calculator_monotonicity.2.2.2.2.2.2.1 1 2 1 1 0 0 (by omega),
   calculator_monotonicity.2.2.2.2.2.2.2.1 1 1 3 1 0 0 (by omega),
   calculator_monotonicity.2.2.2.2.2.2.2.2.1 1 1 1 2 0 0 (by omega),
   calculator_monotonicity.2.2.2.2.2.2.2.2.2.1 0 1 1 1 0 0 (by omega),
   calculator_monotonicity.2.2.2.2.2.2.2.2.2.2.1 1 0 1 1 0 0 (by omega),
   calculator_monotonicity.2.2.2.2.2.2.2.2.2.2.2 1 1 3 4 0 0 (by omega)⟩
